import Mathlib

/-
Verification of the multisensorial trivia application (src/src/App.jsx).

The relevant program logic is embedded shallowly:
  * parseVoiceCommand      (App.jsx lines 160-218)
  * countFingers           (App.jsx lines 325-346)
  * onResults              (App.jsx lines 297-322)
  * the React component state (App.jsx lines 490-513) as a structure
  * handleAnswer, next, restart, confirm/cancel handlers, and the
    useEffect bodies (voice command processing, gesture processing,
    reset-on-index-change, session completion) as pure state
    transformers.

React effect semantics modelled here: after an event handler commits its
state updates, every useEffect whose dependency array changed reruns, in
declaration order (voice effect line 559, gesture effect line 625, reset
effect line 786, completion effect line 797), each seeing the committed
render snapshot.  Each event's step function composes exactly the effect
bodies that rerun for that event, in declaration order.  Effects whose
dependencies are unchanged by the event are not rerun (transcript and
gesture observations are compared against the previous value, matching
the Object.is dependency diff).
-/

namespace Multisensorial

/-! ## Voice command parser (App.jsx 160-218) -/

inductive VoiceCommand where
  | option (k : Nat)
  | repeatCmd
  | nextCmd
  | confirmCmd
  | cancelCmd
  deriving DecidableEq, Repr

inductive ConfTier where
  | high
  | medium
  | none
  deriving DecidableEq, Repr

structure VoiceParseResult where
  command : Option VoiceCommand
  confidence : ConfTier
  original : String
  deriving DecidableEq, Repr

/-- JavaScript toLowerCase, restricted to the alphabet that occurs in this
application's Spanish phrases (ASCII letters plus accented vowels and enye). -/
def jsToLower (c : Char) : Char :=
  if c = 'Á' then 'á' else if c = 'É' then 'é' else if c = 'Í' then 'í'
  else if c = 'Ó' then 'ó' else if c = 'Ú' then 'ú' else if c = 'Ü' then 'ü'
  else if c = 'Ñ' then 'ñ' else c.toLower

/-- JavaScript-style whitespace for trim (the characters relevant here). -/
def jsIsWhitespace (c : Char) : Bool :=
  c = ' ' || c = '\t' || c = '\n' || c = '\r'

def trimLeftChars : List Char → List Char
  | [] => []
  | c :: t => if jsIsWhitespace c then trimLeftChars t else c :: t

/-- trim() on a character list: drop whitespace from both ends. -/
def trimChars (l : List Char) : List Char :=
  (trimLeftChars (trimLeftChars l.reverse).reverse)

/-- text.toLowerCase().trim() from parseVoiceCommand, as a character list. -/
def jsNormalize (text : String) : List Char :=
  trimChars (text.toList.map jsToLower)

/-- JavaScript String.prototype.includes: does key occur as a contiguous
substring of s? -/
def listIncludes (key : List Char) : List Char → Bool
  | [] => key.isEmpty
  | c :: t => key.isPrefixOf (c :: t) || listIncludes key t

/-- The commandMap object literal (App.jsx 164-199), as an association list in
insertion order, which is the iteration order of Object.entries for these
non-integer string keys. -/
def commandMap : List (String × VoiceCommand) :=
  [("opción a", .option 0), ("a", .option 0), ("primera", .option 0),
   ("primera opción", .option 0), ("uno", .option 0),
   ("opción b", .option 1), ("b", .option 1), ("segunda", .option 1),
   ("segunda opción", .option 1), ("dos", .option 1),
   ("opción c", .option 2), ("c", .option 2), ("tercera", .option 2),
   ("tercera opción", .option 2), ("tres", .option 2),
   ("opción d", .option 3), ("d", .option 3), ("cuarta", .option 3),
   ("cuarta opción", .option 3), ("cuatro", .option 3),
   ("repetir", .repeatCmd), ("repetir pregunta", .repeatCmd),
   ("lee otra vez", .repeatCmd),
   ("siguiente", .nextCmd), ("continuar", .nextCmd),
   ("sí", .confirmCmd), ("confirmar", .confirmCmd),
   ("no", .cancelCmd), ("cancelar", .cancelCmd)]

/-- parseVoiceCommand (App.jsx 160-218): exact key lookup first
(hasOwnProperty; the keys of commandMap are pairwise distinct, so the first
match is the match), then the Object.entries scan for the first key that is a
substring of the normalized text, else no command. -/
def parseVoiceCommand (text : String) : VoiceParseResult :=
  match commandMap.find? (fun p => p.1.toList = jsNormalize text) with
  | some p => ⟨some p.2, ConfTier.high, text⟩
  | Option.none =>
    match commandMap.find? (fun p => listIncludes p.1.toList (jsNormalize text)) with
    | some p => ⟨some p.2, ConfTier.medium, text⟩
    | Option.none => ⟨Option.none, ConfTier.none, text⟩

/-! ## Finger state classifier (App.jsx 325-346)

The source's numbers are JavaScript floats that hold exact decimal values
here: landmark coordinates are only ever compared with < and >, so they are
embedded as integers (any fixed decimal scaling); confidences are embedded
scaled by 100, i.e. the constant 0.9 becomes 90 and the 0.8 threshold becomes
80, which preserves every comparison the source performs, including that 0.8
is not greater than 0.8. -/

structure Landmark where
  x : ℤ
  y : ℤ
  z : ℤ
  deriving DecidableEq, Repr

def landmarkZero : Landmark := ⟨0, 0, 0⟩

/-- countFingers (App.jsx 325-346).  Returns the empty array when fewer than
21 landmarks are supplied; otherwise one boolean per finger
(thumb, index, middle, ring, pinky).  Thumb compares x of landmark 4 against
landmark 3; the other fingers compare tip y (8, 12, 16, 20) against the joint
two landmarks proximal (6, 10, 14, 18). -/
def countFingers (landmarks : List Landmark) : List Bool :=
  if landmarks.length < 21 then []
  else
    [decide ((landmarks.getD 4 landmarkZero).x > (landmarks.getD 3 landmarkZero).x),
     decide ((landmarks.getD 8 landmarkZero).y < (landmarks.getD 6 landmarkZero).y),
     decide ((landmarks.getD 12 landmarkZero).y < (landmarks.getD 10 landmarkZero).y),
     decide ((landmarks.getD 16 landmarkZero).y < (landmarks.getD 14 landmarkZero).y),
     decide ((landmarks.getD 20 landmarkZero).y < (landmarks.getD 18 landmarkZero).y)]

/-! ## Question bank (App.jsx 444-484) -/

structure Question where
  id : Nat
  q : String
  options : List String
  correct : Nat
  deriving DecidableEq, Repr

def QUESTIONS : List Question :=
  [⟨1, "¿Cuál NO es un canal típico en una interfaz multisensorial práctica?",
    ["Visual", "Auditivo", "Háptico (vibración)", "Gustativo (sabor)"], 3⟩,
   ⟨2, "Para accesibilidad, ¿qué práctica es correcta?",
    ["Depender solo del color para estados", "Usar iconos + texto además del color",
     "Ocultar el foco del teclado", "Deshabilitar el lector de pantalla"], 1⟩,
   ⟨3, "¿Qué patrón de vibración comunicaría MEJOR un error?",
    ["Vibración corta y única", "Sin vibración",
     "Patrón más largo y con pausas", "Vibración continua 10 segundos"], 2⟩,
   ⟨4, "Para reducir la sobrecarga sensorial, es recomendable…",
    ["Permitir que el usuario configure sonido y vibración",
     "Disparar sonido, voz y vibración siempre juntos",
     "Usar animaciones largas y brillantes", "Bajar el contraste del texto"], 0⟩]

def defaultQuestion : Question := ⟨0, "", [], 0⟩

/-! ## Component state (App.jsx 490-513 plus the hooks' latest-value slots) -/

structure AppState where
  index : Nat
  selected : Option Nat
  score : Nat
  showResult : Option Bool
  voiceInputOn : Bool
  gestureInputOn : Bool
  pendingVoiceCommand : Option Nat
  showVoiceConfirmation : Bool
  pendingGestureCommand : Option Nat
  showGestureConfirmation : Bool
  showResultsModal : Bool
  resultsAlreadyShown : Bool
  transcript : String
  isListening : Bool
  cameraOn : Bool
  detectedGesture : Option Nat
  confidence : ℤ
  fingersUp : List Bool
  advanceTimers : List (Nat × Nat)
  completionTimer : Option Nat
  deriving DecidableEq, Repr

def initState : AppState :=
  { index := 0, selected := Option.none, score := 0, showResult := Option.none,
    voiceInputOn := false, gestureInputOn := false,
    pendingVoiceCommand := Option.none, showVoiceConfirmation := false,
    pendingGestureCommand := Option.none, showGestureConfirmation := false,
    showResultsModal := false, resultsAlreadyShown := false,
    transcript := "", isListening := false,
    cameraOn := false, detectedGesture := Option.none, confidence := 0,
    fingersUp := [], advanceTimers := [], completionTimer := Option.none }

/-- q = QUESTIONS[index] (App.jsx 519).  The index never leaves 0..3 in
reachable states; getD keeps the embedding total. -/
def currentQuestion (s : AppState) : Question :=
  QUESTIONS.getD s.index defaultQuestion

/-! ## Event handlers and effect bodies -/

/-- handleAnswer (App.jsx 837-859): no-op once an answer is selected,
otherwise commits the answer, sets the result banner and bumps the score on a
correct answer.  Audio, vibration and speech feedback are external
collaborators with no component state. -/
def handleAnswer (optIdx : Nat) (s : AppState) : AppState :=
  if s.selected ≠ Option.none then s
  else
    let isCorrect := optIdx = (currentQuestion s).correct
    { s with selected := some optIdx,
             showResult := some isCorrect,
             score := if isCorrect then s.score + 1 else s.score }

/-- confirmVoiceCommand (App.jsx 729-735). -/
def confirmVoiceCommand (s : AppState) : AppState :=
  match s.pendingVoiceCommand with
  | some c =>
      let s' := handleAnswer c s
      { s' with pendingVoiceCommand := Option.none, showVoiceConfirmation := false }
  | Option.none => s

/-- cancelVoiceCommand (App.jsx 738-744). -/
def cancelVoiceCommand (s : AppState) : AppState :=
  { s with pendingVoiceCommand := Option.none, showVoiceConfirmation := false }

/-- confirmGestureCommand (App.jsx 747-773): commits the pending option,
clears the pending state, and schedules the 2000 ms auto-advance timer whose
closure captures the current question index. -/
def confirmGestureCommand (s : AppState) : AppState :=
  match s.pendingGestureCommand with
  | some c =>
      let s' := handleAnswer c s
      { s' with pendingGestureCommand := Option.none,
                showGestureConfirmation := false,
                advanceTimers := s'.advanceTimers ++ [(2000, s.index)] }
  | Option.none => s

/-- cancelGestureCommand (App.jsx 776-783). -/
def cancelGestureCommand (s : AppState) : AppState :=
  { s with pendingGestureCommand := Option.none, showGestureConfirmation := false }

/-- The voice command processing useEffect body (App.jsx 559-611).  Note the
early return when an answer is already selected; the special-command branch
for "next" repeats the selected-not-null test and is therefore dead. -/
def processVoice (s : AppState) : AppState :=
  if s.voiceInputOn = false ∨ s.transcript = "" ∨ s.selected ≠ Option.none then s
  else
    if (parseVoiceCommand s.transcript).command ≠ Option.none ∧
       (parseVoiceCommand s.transcript).confidence ≠ ConfTier.none then
      match (parseVoiceCommand s.transcript).command with
      | some .repeatCmd => { s with isListening := false }
      | some .nextCmd =>
          if s.selected ≠ Option.none ∧ s.index < QUESTIONS.length - 1 then
            { s with index := s.index + 1, isListening := false }
          else { s with isListening := false }
      | some (.option k) =>
          if k ≤ 3 then
            { s with isListening := false,
                     pendingVoiceCommand := some k,
                     showVoiceConfirmation := true }
          else s
      | some .confirmCmd => s
      | some .cancelCmd => s
      | Option.none => s
    else s

/-- The gesture processing useEffect body (App.jsx 625-726). -/
def processGesture (s : AppState) : AppState :=
  if s.gestureInputOn = false then s
  else if s.selected ≠ Option.none then s
  else
    match s.detectedGesture with
    | Option.none => s
    | some fingerCount =>
      if s.confidence > 80 then
        if s.showGestureConfirmation then
          if fingerCount = 0 then confirmGestureCommand s
          else if fingerCount = 5 then cancelGestureCommand s
          else s
        else
          -- optionIndex: fingers 1..4 map to options 0..3, anything else null
          match (if fingerCount = 1 then some 0
                 else if fingerCount = 2 then some 1
                 else if fingerCount = 3 then some 2
                 else if fingerCount = 4 then some 3
                 else Option.none : Option Nat) with
          | some k =>
              if k < (currentQuestion s).options.length then
                { s with pendingGestureCommand := some k,
                         showGestureConfirmation := true }
              else s
          | Option.none => s
      else s

/-- The reset-on-index-change useEffect body (App.jsx 786-794); it runs in an
effect pass exactly when the question index changed, after the gesture
effect. -/
def questionReset (s : AppState) : AppState :=
  { s with selected := Option.none, showResult := Option.none,
           pendingVoiceCommand := Option.none, showVoiceConfirmation := false,
           pendingGestureCommand := Option.none, showGestureConfirmation := false }

/-- The session-completion useEffect body (App.jsx 797-835): on the last
question with a committed answer, fires once (resultsAlreadyShown guard) and
schedules the 1500 ms results-modal presentation timer. -/
def processCompletion (s : AppState) : AppState :=
  if s.index = QUESTIONS.length - 1 ∧ s.selected ≠ Option.none ∧
     s.resultsAlreadyShown = false then
    { s with resultsAlreadyShown := true, completionTimer := some 1500 }
  else s

/-- onResults (App.jsx 297-322): stores the latest observation; confidence is
the constant 0.9 (scaled: 90) whenever a hand is present, and everything is
cleared when no hand is detected. -/
def onResults (res : Option (List Landmark)) (s : AppState) : AppState :=
  match res with
  | Option.none =>
      { s with detectedGesture := Option.none, confidence := 0, fingersUp := [] }
  | some landmarks =>
      let fingers := countFingers landmarks
      { s with fingersUp := fingers,
               detectedGesture := some (fingers.count true),
               confidence := 90 }

/-- The raw state updates of next() (App.jsx 861-879); the gesture camera is
deliberately left running and detectedGesture is not touched. -/
def nextRawUpdates (s : AppState) : AppState :=
  { s with index := s.index + 1, selected := Option.none, showResult := Option.none,
           pendingVoiceCommand := Option.none, showVoiceConfirmation := false,
           pendingGestureCommand := Option.none, showGestureConfirmation := false,
           isListening := false, transcript := "" }

/-- next() plus the effect pass its index change triggers: the voice effect is
the identity (the transcript was just cleared), the gesture effect runs on the
new render snapshot (a retained detection can transiently propose), then the
reset effect clears selection and pending state, then the completion effect
runs. -/
def nextBody (s : AppState) : AppState :=
  processCompletion (questionReset (processGesture (nextRawUpdates s)))

/-- next() (App.jsx 861-879) guarded by its own index check. -/
def nextFn (s : AppState) : AppState :=
  if s.index < QUESTIONS.length - 1 then nextBody s else s

/-- The direct state writes of restart (App.jsx 881-899): note that
pendingGestureCommand and showGestureConfirmation are not among them; the
camera is stopped (clearing the latest detection) only when it was active. -/
def restartRawUpdates (s : AppState) : AppState :=
  { s with index := 0, score := 0, selected := Option.none, showResult := Option.none,
           pendingVoiceCommand := Option.none, showVoiceConfirmation := false,
           showResultsModal := false, resultsAlreadyShown := false,
           isListening := false, transcript := "",
           cameraOn := false,
           detectedGesture := if s.cameraOn then Option.none else s.detectedGesture,
           confidence := if s.cameraOn then 0 else s.confidence,
           fingersUp := if s.cameraOn then [] else s.fingersUp }

/-- restart plus the effect pass it triggers.  When the index was nonzero the
index-change reset effect runs (after the gesture effect) and clears the
pending gesture state; when the index was already 0 that effect does not run,
so restart itself never clears pendingGestureCommand or
showGestureConfirmation. -/
def restartFn (s : AppState) : AppState :=
  if s.index ≠ 0 then
    processCompletion (questionReset (processGesture (restartRawUpdates s)))
  else processCompletion (processGesture (restartRawUpdates s))

/-- Firing one pending auto-advance timer (the setTimeout body at
App.jsx 766-771): the closure checks its captured index and, when not on the
last question, runs next() (whose own guard reads the same captured index,
while setIndex uses the functional update on the live index). -/
def fireAdvance (s : AppState) : AppState :=
  match s.advanceTimers with
  | [] => s
  | (_, capturedIndex) :: rest =>
      if capturedIndex < QUESTIONS.length - 1 then
        nextBody { s with advanceTimers := rest }
      else { s with advanceTimers := rest }

/-- Firing the completion-presentation timer (the setTimeout body at
App.jsx 805-833): shows the results modal; the spoken summary is external. -/
def fireCompletion (s : AppState) : AppState :=
  match s.completionTimer with
  | some _ => { s with completionTimer := Option.none, showResultsModal := true }
  | Option.none => s

/-! ## The event system

Each constructor is one externally triggered entry into the component: a DOM
click, a speech-recognition result, a MediaPipe frame callback, a preference
toggle, or a timer expiry.  Each step composes the handler with the effect
bodies whose dependencies that handler changes (see the header comment). -/

inductive Event where
  | clickAnswer (i : Nat)
  | clickNext
  | voiceConfirmBtn
  | voiceCancelBtn
  | gestureConfirmBtn
  | gestureCancelBtn
  | transcriptEvt (t : String)
  | gestureFrame (res : Option (List Landmark))
  | toggleVoiceInput (b : Bool)
  | toggleGestureInput (b : Bool)
  | restartClick
  | fireAdvanceTimer
  | fireCompletionTimer
  deriving DecidableEq, Repr

/-- One event.  Option buttons only exist for the rendered options and are
disabled once an answer is selected, as is the Siguiente button; those DOM
guards are modelled where they restrict what can reach a handler.  The
completion effect is appended after handlers that change its dependencies
(index, selected, score, resultsAlreadyShown); voice and gesture effect reruns
are composed exactly where a dependency changed and the body is not forced to
the identity by its own guards (a commit sets selected, making both bodies
return unchanged, so those reruns are omitted). -/
def step (e : Event) (s : AppState) : AppState :=
  match e with
  | .clickAnswer i =>
      if i < (currentQuestion s).options.length then
        processCompletion (handleAnswer i s)
      else s
  | .clickNext => if s.selected = Option.none then s else nextFn s
  | .voiceConfirmBtn => processCompletion (confirmVoiceCommand s)
  | .voiceCancelBtn => cancelVoiceCommand s
  | .gestureConfirmBtn => processCompletion (confirmGestureCommand s)
  | .gestureCancelBtn =>
      -- the gesture effect depends on showGestureConfirmation and
      -- pendingGestureCommand, so it reruns after a cancel (a still-held pose
      -- re-proposes immediately)
      processGesture (cancelGestureCommand s)
  | .transcriptEvt t =>
      -- setTranscript with an unchanged value does not rerun the effect
      if t = s.transcript then s else processVoice { s with transcript := t }
  | .gestureFrame res =>
      if (onResults res s).detectedGesture = s.detectedGesture ∧
         (onResults res s).confidence = s.confidence
      then onResults res s else processGesture (onResults res s)
  | .toggleVoiceInput b =>
      if b = s.voiceInputOn then s else processVoice { s with voiceInputOn := b }
  | .toggleGestureInput b =>
      -- the camera-management effect starts or stops the camera, then the
      -- gesture effect reruns (gestureInputOn is a dependency)
      if b = s.gestureInputOn then s
      else if b then processGesture { s with gestureInputOn := b, cameraOn := true }
      else processGesture { s with gestureInputOn := b, cameraOn := false,
                                   detectedGesture := Option.none,
                                   confidence := 0, fingersUp := [] }
  | .restartClick => restartFn s
  | .fireAdvanceTimer => fireAdvance s
  | .fireCompletionTimer => fireCompletion s

def stepAll (es : List Event) (s : AppState) : AppState :=
  es.foldl (fun acc e => step e acc) s

/-! ## Concrete hands for runs -/

/-- A 21-landmark snapshot classified as exactly two raised fingers
(index and middle). -/
def twoFingerHand : List Landmark :=
  [⟨0,0,0⟩, ⟨0,0,0⟩, ⟨0,0,0⟩, ⟨1,0,0⟩, ⟨0,0,0⟩,
   ⟨0,0,0⟩, ⟨0,1,0⟩, ⟨0,0,0⟩, ⟨0,0,0⟩, ⟨0,0,0⟩,
   ⟨0,1,0⟩, ⟨0,0,0⟩, ⟨0,0,0⟩, ⟨0,0,0⟩, ⟨0,0,0⟩,
   ⟨0,0,0⟩, ⟨0,0,0⟩, ⟨0,0,0⟩, ⟨0,0,0⟩, ⟨0,0,0⟩, ⟨0,0,0⟩]

/-- A 21-landmark snapshot classified as exactly three raised fingers
(index, middle, ring). -/
def threeFingerHand : List Landmark :=
  [⟨0,0,0⟩, ⟨0,0,0⟩, ⟨0,0,0⟩, ⟨1,0,0⟩, ⟨0,0,0⟩,
   ⟨0,0,0⟩, ⟨0,1,0⟩, ⟨0,0,0⟩, ⟨0,0,0⟩, ⟨0,0,0⟩,
   ⟨0,1,0⟩, ⟨0,0,0⟩, ⟨0,0,0⟩, ⟨0,0,0⟩, ⟨0,1,0⟩,
   ⟨0,0,0⟩, ⟨0,0,0⟩, ⟨0,0,0⟩, ⟨0,0,0⟩, ⟨0,0,0⟩, ⟨0,0,0⟩]

/-! ## Auxiliary definitions used by the statements below -/

/-- Per-modality consistency: a modality's pending command exists exactly when
its confirmation dialog is shown. -/
def PerModalityConsistent (s : AppState) : Prop :=
  (s.pendingVoiceCommand = Option.none ↔ s.showVoiceConfirmation = false) ∧
  (s.pendingGestureCommand = Option.none ↔ s.showGestureConfirmation = false)

/-- The events that are answer attempts for the current question: click
commits, voice and gesture confirm clicks, and the two input feeders. -/
def isAnswerAttempt : Event → Bool
  | .clickAnswer _ => true
  | .voiceConfirmBtn => true
  | .gestureConfirmBtn => true
  | .transcriptEvt _ => true
  | .gestureFrame _ => true
  | _ => false

/-- Run reaching a state in which both modalities are pending at once. -/
def bothPendingRun : List Event :=
  [.toggleVoiceInput true, .toggleGestureInput true,
   .gestureFrame (some twoFingerHand), .transcriptEvt "a"]

/-- Run reaching a state with a stale three-finger detection and a committed
answer on question 0, just before the user clicks Siguiente. -/
def staleDetectionRun : List Event :=
  [.toggleGestureInput true, .clickAnswer 0, .gestureFrame (some threeFingerHand)]

/-- Run reaching question 0 with a pending gesture command, where restart is
then invoked while the index is already 0. -/
def pendingAtZeroRun : List Event :=
  [.toggleGestureInput true, .gestureFrame (some twoFingerHand)]

/-- An idle state with gesture input active and a two-finger observation. -/
def idleTwoFingerState : AppState :=
  { initState with gestureInputOn := true, cameraOn := true,
                   detectedGesture := some 2, confidence := 90 }

/-- A state awaiting gesture confirmation of option B, observing a fist. -/
def confirmFistState : AppState :=
  { initState with gestureInputOn := true, cameraOn := true,
                   pendingGestureCommand := some 1, showGestureConfirmation := true,
                   detectedGesture := some 0, confidence := 90 }

/-- The state after clicking answer B on question 0: the answer is locked. -/
def lockedState : AppState := step (Event.clickAnswer 1) initState

/-- A sequence of answer attempts thrown at a locked state. -/
def lateAttempts : List Event :=
  [Event.clickAnswer 0, Event.gestureConfirmBtn, Event.transcriptEvt "a"]

/-! ## Frame and guard lemmas -/

theorem handleAnswer_of_selected (i : Nat) (s : AppState)
    (h : s.selected ≠ Option.none) : handleAnswer i s = s := by
  unfold handleAnswer; rw [if_pos h]

theorem handleAnswer_frame (i : Nat) (s : AppState) :
    (handleAnswer i s).index = s.index ∧
    (handleAnswer i s).pendingVoiceCommand = s.pendingVoiceCommand ∧
    (handleAnswer i s).showVoiceConfirmation = s.showVoiceConfirmation ∧
    (handleAnswer i s).pendingGestureCommand = s.pendingGestureCommand ∧
    (handleAnswer i s).showGestureConfirmation = s.showGestureConfirmation ∧
    (handleAnswer i s).advanceTimers = s.advanceTimers ∧
    (handleAnswer i s).transcript = s.transcript ∧
    (handleAnswer i s).detectedGesture = s.detectedGesture ∧
    (handleAnswer i s).resultsAlreadyShown = s.resultsAlreadyShown := by
  unfold handleAnswer; split <;> simp

theorem processCompletion_frame (s : AppState) :
    (processCompletion s).index = s.index ∧
    (processCompletion s).selected = s.selected ∧
    (processCompletion s).score = s.score ∧
    (processCompletion s).showResult = s.showResult ∧
    (processCompletion s).pendingVoiceCommand = s.pendingVoiceCommand ∧
    (processCompletion s).showVoiceConfirmation = s.showVoiceConfirmation ∧
    (processCompletion s).pendingGestureCommand = s.pendingGestureCommand ∧
    (processCompletion s).showGestureConfirmation = s.showGestureConfirmation ∧
    (processCompletion s).transcript = s.transcript ∧
    (processCompletion s).isListening = s.isListening ∧
    (processCompletion s).detectedGesture = s.detectedGesture ∧
    (processCompletion s).confidence = s.confidence ∧
    (processCompletion s).advanceTimers = s.advanceTimers := by
  unfold processCompletion; split <;> simp

theorem processCompletion_of_unselected (s : AppState)
    (h : s.selected = Option.none) : processCompletion s = s := by
  unfold processCompletion
  rw [if_neg]
  simp [h]

theorem processVoice_of_selected (s : AppState) (h : s.selected ≠ Option.none) :
    processVoice s = s := by
  unfold processVoice; rw [if_pos (Or.inr (Or.inr h))]

theorem processGesture_of_selected (s : AppState) (h : s.selected ≠ Option.none) :
    processGesture s = s := by
  unfold processGesture
  repeat' split
  all_goals simp_all

/-- Everything processVoice can do: nothing, stop listening, or stop
listening and raise a voice confirmation. -/
theorem processVoice_cases (s : AppState) :
    processVoice s = s ∨ processVoice s = { s with isListening := false } ∨
    ∃ k, processVoice s =
      { s with isListening := false, pendingVoiceCommand := some k,
               showVoiceConfirmation := true } := by
  unfold processVoice
  repeat' split
  all_goals simp_all

theorem processVoice_frame (s : AppState) :
    (processVoice s).index = s.index ∧
    (processVoice s).selected = s.selected ∧
    (processVoice s).score = s.score ∧
    (processVoice s).pendingGestureCommand = s.pendingGestureCommand ∧
    (processVoice s).showGestureConfirmation = s.showGestureConfirmation ∧
    (processVoice s).detectedGesture = s.detectedGesture ∧
    (processVoice s).advanceTimers = s.advanceTimers := by
  rcases processVoice_cases s with h | h | ⟨k, h⟩ <;> rw [h] <;> simp

/-- Everything processGesture can do: nothing, confirm, cancel, or raise a
gesture confirmation (the latter only when none is showing). -/
theorem processGesture_cases (s : AppState) :
    processGesture s = s ∨
    (s.showGestureConfirmation = true ∧
      processGesture s = confirmGestureCommand s) ∨
    (s.showGestureConfirmation = true ∧
      processGesture s = cancelGestureCommand s) ∨
    (s.showGestureConfirmation = false ∧
      ∃ k, processGesture s =
        { s with pendingGestureCommand := some k,
                 showGestureConfirmation := true }) := by
  unfold processGesture
  repeat' split
  all_goals simp_all

theorem processGesture_noconf_frame (s : AppState)
    (h : s.showGestureConfirmation = false) :
    (processGesture s).index = s.index ∧
    (processGesture s).selected = s.selected ∧
    (processGesture s).score = s.score ∧
    (processGesture s).showResult = s.showResult ∧
    (processGesture s).pendingVoiceCommand = s.pendingVoiceCommand ∧
    (processGesture s).showVoiceConfirmation = s.showVoiceConfirmation ∧
    (processGesture s).transcript = s.transcript ∧
    (processGesture s).isListening = s.isListening ∧
    (processGesture s).detectedGesture = s.detectedGesture ∧
    (processGesture s).confidence = s.confidence ∧
    (processGesture s).advanceTimers = s.advanceTimers ∧
    (processGesture s).resultsAlreadyShown = s.resultsAlreadyShown ∧
    (processGesture s).completionTimer = s.completionTimer := by
  rcases processGesture_cases s with hc | ⟨ht, hc⟩ | ⟨ht, hc⟩ | ⟨-, k, hc⟩
  · rw [hc]; simp
  · simp [h] at ht
  · simp [h] at ht
  · rw [hc]; simp

theorem onResults_frame (res : Option (List Landmark)) (s : AppState) :
    (onResults res s).selected = s.selected ∧
    (onResults res s).score = s.score ∧
    (onResults res s).index = s.index ∧
    (onResults res s).pendingVoiceCommand = s.pendingVoiceCommand ∧
    (onResults res s).showVoiceConfirmation = s.showVoiceConfirmation ∧
    (onResults res s).pendingGestureCommand = s.pendingGestureCommand ∧
    (onResults res s).showGestureConfirmation = s.showGestureConfirmation ∧
    (onResults res s).transcript = s.transcript := by
  unfold onResults; cases res <;> simp

theorem processGesture_of_nogesture (s : AppState)
    (h : s.detectedGesture = Option.none) : processGesture s = s := by
  unfold processGesture
  repeat' split
  all_goals simp_all

theorem processGesture_of_lowconf (s : AppState) (h : s.confidence ≤ 80) :
    processGesture s = s := by
  unfold processGesture
  repeat' split
  all_goals first | rfl | omega

theorem confirmVoiceCommand_locked (s : AppState)
    (hne : s.selected ≠ Option.none) :
    (confirmVoiceCommand s).selected = s.selected ∧
    (confirmVoiceCommand s).score = s.score := by
  cases hp : s.pendingVoiceCommand with
  | none => simp [confirmVoiceCommand, hp]
  | some c => simp [confirmVoiceCommand, hp, handleAnswer_of_selected c s hne]

theorem confirmGestureCommand_locked (s : AppState)
    (hne : s.selected ≠ Option.none) :
    (confirmGestureCommand s).selected = s.selected ∧
    (confirmGestureCommand s).score = s.score := by
  cases hp : s.pendingGestureCommand with
  | none => simp [confirmGestureCommand, hp]
  | some c => simp [confirmGestureCommand, hp, handleAnswer_of_selected c s hne]

/-! ## Consistency preservation lemmas -/

theorem pmc_congr {s x : AppState}
    (h1 : x.pendingVoiceCommand = s.pendingVoiceCommand)
    (h2 : x.showVoiceConfirmation = s.showVoiceConfirmation)
    (h3 : x.pendingGestureCommand = s.pendingGestureCommand)
    (h4 : x.showGestureConfirmation = s.showGestureConfirmation)
    (h : PerModalityConsistent s) : PerModalityConsistent x := by
  unfold PerModalityConsistent at *
  rw [h1, h2, h3, h4]
  exact h

theorem pmc_handleAnswer (i : Nat) (s : AppState)
    (h : PerModalityConsistent s) : PerModalityConsistent (handleAnswer i s) := by
  obtain ⟨-, f2, f3, f4, f5, -⟩ := handleAnswer_frame i s
  exact pmc_congr f2 f3 f4 f5 h

theorem pmc_processCompletion (s : AppState)
    (h : PerModalityConsistent s) : PerModalityConsistent (processCompletion s) := by
  obtain ⟨-, -, -, -, f5, f6, f7, f8, -⟩ := processCompletion_frame s
  exact pmc_congr f5 f6 f7 f8 h

theorem pmc_questionReset (s : AppState) :
    PerModalityConsistent (questionReset s) := by
  unfold PerModalityConsistent questionReset
  simp

theorem pmc_nextBody (s : AppState) : PerModalityConsistent (nextBody s) :=
  pmc_processCompletion _ (pmc_questionReset _)

theorem pmc_confirmVoiceCommand (s : AppState)
    (h : PerModalityConsistent s) :
    PerModalityConsistent (confirmVoiceCommand s) := by
  cases hp : s.pendingVoiceCommand with
  | none => simpa [confirmVoiceCommand, hp] using h
  | some c =>
      obtain ⟨-, -, -, f4, f5, -⟩ := handleAnswer_frame c s
      unfold PerModalityConsistent at *
      simp [confirmVoiceCommand, hp, f4, f5]
      exact h.2

theorem pmc_cancelVoiceCommand (s : AppState)
    (h : PerModalityConsistent s) :
    PerModalityConsistent (cancelVoiceCommand s) := by
  unfold PerModalityConsistent at *
  simp [cancelVoiceCommand]
  exact h.2

theorem pmc_confirmGestureCommand (s : AppState)
    (h : PerModalityConsistent s) :
    PerModalityConsistent (confirmGestureCommand s) := by
  cases hp : s.pendingGestureCommand with
  | none => simpa [confirmGestureCommand, hp] using h
  | some c =>
      obtain ⟨-, f2, f3, -⟩ := handleAnswer_frame c s
      unfold PerModalityConsistent at *
      simp [confirmGestureCommand, hp, f2, f3]
      exact h.1

theorem pmc_cancelGestureCommand (s : AppState)
    (h : PerModalityConsistent s) :
    PerModalityConsistent (cancelGestureCommand s) := by
  unfold PerModalityConsistent at *
  simp [cancelGestureCommand]
  exact h.1

theorem pmc_processVoice (s : AppState) (h : PerModalityConsistent s) :
    PerModalityConsistent (processVoice s) := by
  rcases processVoice_cases s with hc | hc | ⟨k, hc⟩ <;> rw [hc]
  · exact h
  · exact pmc_congr rfl rfl rfl rfl h
  · unfold PerModalityConsistent at *
    simp
    exact h.2

theorem pmc_processGesture (s : AppState) (h : PerModalityConsistent s) :
    PerModalityConsistent (processGesture s) := by
  rcases processGesture_cases s with hc | ⟨-, hc⟩ | ⟨-, hc⟩ | ⟨-, k, hc⟩ <;> rw [hc]
  · exact h
  · exact pmc_confirmGestureCommand s h
  · exact pmc_cancelGestureCommand s h
  · unfold PerModalityConsistent at *
    simp
    exact h.1

theorem pmc_onResults (res : Option (List Landmark)) (s : AppState)
    (h : PerModalityConsistent s) : PerModalityConsistent (onResults res s) := by
  obtain ⟨-, -, -, f4, f5, f6, f7, -⟩ := onResults_frame res s
  exact pmc_congr f4 f5 f6 f7 h

theorem pmc_step (e : Event) (s : AppState) (h : PerModalityConsistent s) :
    PerModalityConsistent (step e s) := by
  cases e with
  | clickAnswer i =>
      simp only [step]
      split
      · exact pmc_processCompletion _ (pmc_handleAnswer i s h)
      · exact h
  | clickNext =>
      simp only [step]
      unfold nextFn
      split
      · exact h
      · split
        · exact pmc_nextBody _
        · exact h
  | voiceConfirmBtn => exact pmc_processCompletion _ (pmc_confirmVoiceCommand s h)
  | voiceCancelBtn => exact pmc_cancelVoiceCommand s h
  | gestureConfirmBtn => exact pmc_processCompletion _ (pmc_confirmGestureCommand s h)
  | gestureCancelBtn => exact pmc_processGesture _ (pmc_cancelGestureCommand s h)
  | transcriptEvt t =>
      simp only [step]
      split
      · exact h
      · exact pmc_processVoice _ (pmc_congr rfl rfl rfl rfl h)
  | gestureFrame res =>
      simp only [step]
      split
      · exact pmc_onResults res s h
      · exact pmc_processGesture _ (pmc_onResults res s h)
  | toggleVoiceInput b =>
      simp only [step]
      split
      · exact h
      · exact pmc_processVoice _ (pmc_congr rfl rfl rfl rfl h)
  | toggleGestureInput b =>
      simp only [step]
      split
      · exact h
      · split
        · exact pmc_processGesture _ (pmc_congr rfl rfl rfl rfl h)
        · exact pmc_processGesture _ (pmc_congr rfl rfl rfl rfl h)
  | restartClick =>
      simp only [step]
      unfold restartFn
      split
      · exact pmc_processCompletion _ (pmc_questionReset _)
      · refine pmc_processCompletion _ (pmc_processGesture _ ?_)
        unfold PerModalityConsistent restartRawUpdates at *
        simp
        exact h.2
  | fireAdvanceTimer =>
      simp only [step]
      unfold fireAdvance
      split
      · exact h
      · split
        · exact pmc_nextBody _
        · exact pmc_congr rfl rfl rfl rfl h
  | fireCompletionTimer =>
      simp only [step]
      unfold fireCompletion
      split
      · exact pmc_congr rfl rfl rfl rfl h
      · exact h

/-! ## C4 -/

/-- C4: the claim that the voice command "next" advances the question when an
answer is selected is contradicted by the code: the voice-processing effect
returns as soon as an answer is selected, which makes its inner next branch
(itself requiring a selected answer) unreachable, so "siguiente" parses to the
next command yet the voice effect never changes the question index, in any
state. -/
theorem voice_next_never_advances :
    (parseVoiceCommand "siguiente").command = some VoiceCommand.nextCmd ∧
    (parseVoiceCommand "siguiente").confidence = ConfTier.high ∧
    ∀ s : AppState, (processVoice s).index = s.index := by
  refine ⟨by decide, by decide, fun s => ?_⟩
  exact (processVoice_frame s).1

/-! ## C8 -/

/-- C8 counterexample: on twenty landmarks (fewer than 21), countFingers
returns the empty array, not the all-false five-entry finger vector. -/
theorem countFingers_short_cex :
    countFingers (List.replicate 20 landmarkZero) = [] ∧
    countFingers (List.replicate 20 landmarkZero) ≠
      [false, false, false, false, false] := by decide

/-- C8 (amended): for every input with fewer than 21 landmarks, the
finger-state classifier returns the empty finger vector. -/
theorem countFingers_short (landmarks : List Landmark)
    (h : landmarks.length < 21) : countFingers landmarks = [] := by
  unfold countFingers; rw [if_pos h]

/-- Witness for countFingers_short at a concrete 20-landmark input. -/
theorem countFingers_short_witness :
    (List.replicate 20 landmarkZero).length < 21 ∧
    countFingers (List.replicate 20 landmarkZero) = [] :=
  ⟨by decide, countFingers_short (List.replicate 20 landmarkZero) (by decide)⟩

/-! ## C10 -/

/-- C10: handleAnswer only writes selected, the result banner and the score:
it never clears either modality's pending command or confirmation dialog, and
when no answer is selected it commits the clicked option. -/
theorem handleAnswer_preserves_pending (s : AppState) (i : Nat) :
    (handleAnswer i s).pendingGestureCommand = s.pendingGestureCommand ∧
    (handleAnswer i s).showGestureConfirmation = s.showGestureConfirmation ∧
    (handleAnswer i s).pendingVoiceCommand = s.pendingVoiceCommand ∧
    (handleAnswer i s).showVoiceConfirmation = s.showVoiceConfirmation ∧
    (s.selected = Option.none → (handleAnswer i s).selected = some i) := by
  unfold handleAnswer
  split
  · next hsel => exact ⟨rfl, rfl, rfl, rfl, fun h => absurd h hsel⟩
  · exact ⟨rfl, rfl, rfl, rfl, fun _ => rfl⟩

/-- Witness for handleAnswer_preserves_pending: a click while a gesture
confirmation is pending commits the clicked answer and leaves the pending
gesture command and its dialog in place. -/
theorem handleAnswer_preserves_pending_witness :
    (handleAnswer 0 confirmFistState).pendingGestureCommand = some 1 ∧
    (handleAnswer 0 confirmFistState).showGestureConfirmation = true ∧
    (handleAnswer 0 confirmFistState).selected = some 0 := by
  have h := handleAnswer_preserves_pending confirmFistState 0
  refine ⟨h.1.trans (by decide), h.2.1.trans (by decide), h.2.2.2.2 (by decide)⟩

/-! ## C7 -/

/-- C7: the voice parser's tiering: an exact table hit yields that key's
command at tier high; otherwise the first table key (in insertion order) that
is a substring of the normalized text yields its command at tier medium;
otherwise no command at tier none.  In particular, "opción a" and "a" give
option 0 at high, "quiero la opción a porfavor" gives option 0 at medium, and
"xyz" gives none. -/
theorem voice_parser_tiering :
    parseVoiceCommand "opción a" =
      ⟨some (VoiceCommand.option 0), ConfTier.high, "opción a"⟩ ∧
    parseVoiceCommand "a" = ⟨some (VoiceCommand.option 0), ConfTier.high, "a"⟩ ∧
    parseVoiceCommand "quiero la opción a porfavor" =
      ⟨some (VoiceCommand.option 0), ConfTier.medium,
       "quiero la opción a porfavor"⟩ ∧
    parseVoiceCommand "xyz" = ⟨Option.none, ConfTier.none, "xyz"⟩ ∧
    ∀ text : String,
      (∀ p, commandMap.find? (fun q => q.1.toList = jsNormalize text) = some p →
         parseVoiceCommand text = ⟨some p.2, ConfTier.high, text⟩) ∧
      (commandMap.find? (fun q => q.1.toList = jsNormalize text) = Option.none →
        (∀ p, commandMap.find?
            (fun q => listIncludes q.1.toList (jsNormalize text)) = some p →
           parseVoiceCommand text = ⟨some p.2, ConfTier.medium, text⟩) ∧
        (commandMap.find?
            (fun q => listIncludes q.1.toList (jsNormalize text)) = Option.none →
           parseVoiceCommand text = ⟨Option.none, ConfTier.none, text⟩)) := by
  refine ⟨by decide, by decide, by decide, by decide, fun text => ?_⟩
  refine ⟨fun p h => ?_, fun h => ⟨fun p h' => ?_, fun h' => ?_⟩⟩
  · unfold parseVoiceCommand
    rw [h]
  · unfold parseVoiceCommand
    rw [h, h']
  · unfold parseVoiceCommand
    rw [h, h']

/-- Witness for voice_parser_tiering at the exact key "uno". -/
theorem voice_parser_tiering_witness :
    commandMap.find? (fun q => q.1.toList = jsNormalize "uno") =
      some ("uno", VoiceCommand.option 0) ∧
    parseVoiceCommand "uno" =
      ⟨some (VoiceCommand.option 0), ConfTier.high, "uno"⟩ :=
  ⟨by decide,
   (voice_parser_tiering.2.2.2.2 "uno").1 ("uno", VoiceCommand.option 0) (by decide)⟩

/-! ## C5 -/

/-- C5: gesture intent mapping.  No observation with confidence at or below
the 0.8 threshold (scaled: 80) triggers anything; while no confirmation is
pending, finger counts 1..4 raise a pending command for options 0..3 when in
range while 0 and 5 are ignored; while a confirmation is pending, a fist
(0 fingers) confirms, an open hand (5) cancels, and 1..4 change nothing. -/
theorem gesture_intent_mapping :
    (∀ s : AppState, s.confidence ≤ 80 → processGesture s = s) ∧
    (∀ (s : AppState) (fc : Nat), s.gestureInputOn = true →
       s.selected = Option.none → s.detectedGesture = some fc →
       80 < s.confidence → s.showGestureConfirmation = false →
       ((fc = 0 ∨ fc = 5) → processGesture s = s) ∧
       (1 ≤ fc → fc ≤ 4 → fc - 1 < (currentQuestion s).options.length →
          processGesture s =
            { s with pendingGestureCommand := some (fc - 1),
                     showGestureConfirmation := true })) ∧
    (∀ (s : AppState) (fc : Nat), s.gestureInputOn = true →
       s.selected = Option.none → s.detectedGesture = some fc →
       80 < s.confidence → s.showGestureConfirmation = true →
       (fc = 0 → processGesture s = confirmGestureCommand s) ∧
       (fc = 5 → processGesture s = cancelGestureCommand s) ∧
       (1 ≤ fc → fc ≤ 4 → processGesture s = s)) := by
  refine ⟨fun s h => ?_, fun s fc h1 h2 h3 h4 h5 => ⟨fun hf => ?_, ?_⟩,
          fun s fc h1 h2 h3 h4 h5 => ⟨fun hf => ?_, fun hf => ?_, fun ha hb => ?_⟩⟩
  · unfold processGesture
    repeat' split
    all_goals first | rfl | omega
  · rcases hf with hf | hf <;> subst hf <;> simp_all [processGesture]
  · intro ha hb hlt
    interval_cases fc <;> simp_all [processGesture]
  · subst hf; simp_all [processGesture]
  · subst hf; simp_all [processGesture]
  · interval_cases fc <;> simp_all [processGesture]

/-- Witness for gesture_intent_mapping: confidence exactly at the threshold
triggers nothing; a two-finger observation proposes option B; a fist during
confirmation confirms. -/
theorem gesture_intent_mapping_witness :
    processGesture { idleTwoFingerState with confidence := 80 } =
      { idleTwoFingerState with confidence := 80 } ∧
    processGesture idleTwoFingerState =
      { idleTwoFingerState with pendingGestureCommand := some 1,
                                showGestureConfirmation := true } ∧
    processGesture confirmFistState = confirmGestureCommand confirmFistState := by
  refine ⟨gesture_intent_mapping.1 _ (by decide), ?_, ?_⟩
  · exact (gesture_intent_mapping.2.1 idleTwoFingerState 2 (by decide) (by decide)
      (by decide) (by decide) (by decide)).2 (by decide) (by decide) (by decide)
  · exact (gesture_intent_mapping.2.2 confirmFistState 0 (by decide) (by decide)
      (by decide) (by decide) (by decide)).1 rfl

/-! ## C9 -/

/-- C9: only a gesture commit schedules the 2000 ms auto-advance (capturing
the current index); click and voice commits schedule none; a timer whose
captured index is the last question fires without effect; and on the last
answered question the completion path, guarded by resultsAlreadyShown, sets
the flag and schedules the 1500 ms presentation timer. -/
theorem gesture_auto_advance_only :
    (∀ (s : AppState) (p : Nat), s.pendingGestureCommand = some p →
       (confirmGestureCommand s).advanceTimers =
         s.advanceTimers ++ [(2000, s.index)]) ∧
    (∀ (s : AppState) (i : Nat),
       (handleAnswer i s).advanceTimers = s.advanceTimers) ∧
    (∀ s : AppState, (confirmVoiceCommand s).advanceTimers = s.advanceTimers) ∧
    (∀ (s : AppState) (d : Nat) (rest : List (Nat × Nat)),
       s.advanceTimers = (d, QUESTIONS.length - 1) :: rest →
       step Event.fireAdvanceTimer s = { s with advanceTimers := rest }) ∧
    (∀ s : AppState, s.index = QUESTIONS.length - 1 →
       s.selected ≠ Option.none → s.resultsAlreadyShown = false →
       processCompletion s =
         { s with resultsAlreadyShown := true, completionTimer := some 1500 }) ∧
    (∀ s : AppState, s.resultsAlreadyShown = true → processCompletion s = s) := by
  refine ⟨fun s p h => ?_, fun s i => (handleAnswer_frame i s).2.2.2.2.2.1,
          fun s => ?_, fun s d rest h => ?_, fun s h1 h2 h3 => ?_, fun s h => ?_⟩
  · simp [confirmGestureCommand, h, (handleAnswer_frame p s).2.2.2.2.2.1]
  · cases h : s.pendingVoiceCommand with
    | none => simp [confirmVoiceCommand, h]
    | some c => simp [confirmVoiceCommand, h, (handleAnswer_frame c s).2.2.2.2.2.1]
  · unfold step fireAdvance
    rw [h]
    simp
  · unfold processCompletion
    rw [if_pos ⟨h1, h2, h3⟩]
  · unfold processCompletion
    rw [if_neg]
    simp [h]

/-- Witness for gesture_auto_advance_only at concrete states. -/
theorem gesture_auto_advance_only_witness :
    (confirmGestureCommand confirmFistState).advanceTimers = [(2000, 0)] ∧
    step Event.fireAdvanceTimer { initState with advanceTimers := [(2000, 3)] } =
      { initState with advanceTimers := [] } ∧
    processCompletion { initState with index := 3, selected := some 0 } =
      { initState with index := 3, selected := some 0,
                       resultsAlreadyShown := true, completionTimer := some 1500 } := by
  refine ⟨?_, ?_, ?_⟩
  · have h := gesture_auto_advance_only.1 confirmFistState 1 (by decide)
    simpa using h
  · have h := gesture_auto_advance_only.2.2.2.1
      { initState with advanceTimers := [(2000, 3)] } 2000 [] (by decide)
    simpa using h
  · have h := gesture_auto_advance_only.2.2.2.2.1
      { initState with index := 3, selected := some 0 }
      (by decide) (by decide) (by decide)
    simpa using h

/-! ## C1 -/

theorem step_attempt_lock (e : Event) (s : AppState) (a : Nat)
    (h : s.selected = some a) (he : isAnswerAttempt e = true) :
    (step e s).selected = some a ∧ (step e s).score = s.score := by
  have hne : s.selected ≠ Option.none := by rw [h]; exact fun hc => Option.noConfusion hc
  have c2 : ∀ x : AppState, (processCompletion x).selected = x.selected :=
    fun x => (processCompletion_frame x).2.1
  have c3 : ∀ x : AppState, (processCompletion x).score = x.score :=
    fun x => (processCompletion_frame x).2.2.1
  cases e with
  | clickAnswer i =>
      simp only [step]
      split
      · rw [handleAnswer_of_selected i s hne]
        exact ⟨(c2 s).trans h, c3 s⟩
      · exact ⟨h, rfl⟩
  | voiceConfirmBtn =>
      simp only [step]
      obtain ⟨l1, l2⟩ := confirmVoiceCommand_locked s hne
      exact ⟨(c2 _).trans (l1.trans h), (c3 _).trans l2⟩
  | gestureConfirmBtn =>
      simp only [step]
      obtain ⟨l1, l2⟩ := confirmGestureCommand_locked s hne
      exact ⟨(c2 _).trans (l1.trans h), (c3 _).trans l2⟩
  | transcriptEvt t =>
      simp only [step]
      split
      · exact ⟨h, rfl⟩
      · rw [processVoice_of_selected { s with transcript := t } hne]
        exact ⟨h, rfl⟩
  | gestureFrame res =>
      simp only [step]
      obtain ⟨o1, o2, -⟩ := onResults_frame res s
      split
      · exact ⟨o1.trans h, o2⟩
      · rw [processGesture_of_selected (onResults res s) (by rw [o1]; exact hne)]
        exact ⟨o1.trans h, o2⟩
  | clickNext => exact Bool.noConfusion he
  | voiceCancelBtn => exact Bool.noConfusion he
  | gestureCancelBtn => exact Bool.noConfusion he
  | toggleVoiceInput b => exact Bool.noConfusion he
  | toggleGestureInput b => exact Bool.noConfusion he
  | restartClick => exact Bool.noConfusion he
  | fireAdvanceTimer => exact Bool.noConfusion he
  | fireCompletionTimer => exact Bool.noConfusion he

/-- C1: the answer lock.  Once an answer is selected for the current
question, any further sequence of answer attempts (click commits, voice or
gesture confirms, and transcript or gesture-frame deliveries) leaves the
selected answer and the score unchanged. -/
theorem at_most_one_commit (s : AppState) (a : Nat) (h : s.selected = some a)
    (es : List Event) (hes : es.all isAnswerAttempt = true) :
    (stepAll es s).selected = some a ∧ (stepAll es s).score = s.score := by
  induction es generalizing s with
  | nil => exact ⟨h, rfl⟩
  | cons e t ih =>
      rw [List.all_cons, Bool.and_eq_true] at hes
      have h1 := step_attempt_lock e s a h hes.1
      have h2 := ih (step e s) h1.1 hes.2
      exact ⟨h2.1, h2.2.trans h1.2⟩

/-- Witness for at_most_one_commit: after clicking answer B on question 0,
a further click, a gesture confirm and a voice transcript change nothing. -/
theorem at_most_one_commit_witness :
    lockedState.selected = some 1 ∧
    (lateAttempts.all isAnswerAttempt = true) ∧
    (stepAll lateAttempts lockedState).selected = some 1 ∧
    (stepAll lateAttempts lockedState).score = lockedState.score := by
  have h := at_most_one_commit lockedState 1 (by decide) lateAttempts (by decide)
  exact ⟨by decide, by decide, h.1, h.2⟩

/-! ## C2 -/

/-- C2 counterexample: from the initial state, enabling both inputs, then a
two-finger gesture observation followed by the transcript "a", leaves a
pending gesture command (with its confirmation shown) and a pending voice
command (with its confirmation shown) at the same time: the voice effect does
not consult the gesture confirmation state, nor vice versa. -/
theorem both_modalities_pending_cex :
    (stepAll bothPendingRun initState).pendingVoiceCommand = some 0 ∧
    (stepAll bothPendingRun initState).showVoiceConfirmation = true ∧
    (stepAll bothPendingRun initState).pendingGestureCommand = some 1 ∧
    (stepAll bothPendingRun initState).showGestureConfirmation = true := by decide

/-- C2 (amended): what the code guarantees is per-modality consistency: in
every reachable state each modality's pending command exists exactly when its
confirmation is shown; but the two modalities can both be pending at once. -/
theorem per_modality_consistency (es : List Event) :
    PerModalityConsistent (stepAll es initState) := by
  have hall : ∀ (l : List Event) (s : AppState), PerModalityConsistent s →
      PerModalityConsistent (stepAll l s) := by
    intro l
    induction l with
    | nil => exact fun s hs => hs
    | cons e t ih => exact fun s hs => ih (step e s) (pmc_step e s hs)
  exact hall es initState (by unfold PerModalityConsistent initState; simp)

/-! ## C3 -/

/-- C3 counterexample: with gesture input on, answer A clicked on question 0
and a three-finger observation buffered, clicking Siguiente advances the
index but the latest gesture detection is not discarded: it survives the
question change, contradicting the claimed discard. -/
theorem stale_detection_survives_cex :
    (stepAll staleDetectionRun initState).index = 0 ∧
    (stepAll staleDetectionRun initState).detectedGesture = some 3 ∧
    (step Event.clickNext (stepAll staleDetectionRun initState)).index = 1 ∧
    (step Event.clickNext (stepAll staleDetectionRun initState)).detectedGesture =
      some 3 := by decide

/-- C3 (amended): a question advance clears selectedAnswer, the result
banner, both pending commands and both confirmation flags, clears the voice
transcript and stops listening, but retains the latest gesture detection and
its confidence (the camera keeps running); any transient re-proposal the
retained detection produces inside the advance's effect pass is itself
cleared by the reset effect, which runs after the gesture effect. -/
theorem question_change_reset (s : AppState)
    (h : s.index < QUESTIONS.length - 1) :
    (nextFn s).index = s.index + 1 ∧
    (nextFn s).selected = Option.none ∧
    (nextFn s).showResult = Option.none ∧
    (nextFn s).pendingVoiceCommand = Option.none ∧
    (nextFn s).showVoiceConfirmation = false ∧
    (nextFn s).pendingGestureCommand = Option.none ∧
    (nextFn s).showGestureConfirmation = false ∧
    (nextFn s).transcript = "" ∧
    (nextFn s).isListening = false ∧
    (nextFn s).detectedGesture = s.detectedGesture ∧
    (nextFn s).confidence = s.confidence := by
  unfold nextFn
  rw [if_pos h]
  unfold nextBody
  obtain ⟨g1, g2, g3, g4, g5, g6, g7, g8, g9, g10, -⟩ :=
    processGesture_noconf_frame (nextRawUpdates s) rfl
  obtain ⟨c1, c2, c3, c4, c5, c6, c7, c8, c9, c10, c11, c12, -⟩ :=
    processCompletion_frame (questionReset (processGesture (nextRawUpdates s)))
  exact ⟨c1.trans g1, c2, c4, c5, c6, c7, c8, c9.trans g7, c10.trans g8,
         c11.trans g9, c12.trans g10⟩

/-- Witness for question_change_reset at the initial state. -/
theorem question_change_reset_witness :
    initState.index < QUESTIONS.length - 1 ∧
    (nextFn initState).index = 1 ∧
    (nextFn initState).selected = Option.none := by
  have h := question_change_reset initState (by decide)
  exact ⟨by decide, h.1, h.2.1⟩

/-! ## C6 -/

/-- C6 counterexample: a pending gesture command proposed on question 0 (a
reachable state) survives a restart invoked while the index is already 0,
because restart itself never clears the pending gesture state and the
index-change reset effect does not run when the index does not change. -/
theorem restart_keeps_pending_gesture_cex :
    (stepAll pendingAtZeroRun initState).index = 0 ∧
    (stepAll pendingAtZeroRun initState).pendingGestureCommand = some 1 ∧
    (step Event.restartClick (stepAll pendingAtZeroRun initState)).pendingGestureCommand =
      some 1 ∧
    (step Event.restartClick (stepAll pendingAtZeroRun initState)).showGestureConfirmation =
      true := by decide

/-- C6 (amended): restart always destroys the pending voice command and
resets index, score, selection, transcript and the results flags; the pending
gesture command is cleared only through the index-change reset effect, so it
is destroyed exactly when the index was nonzero and survives untouched when
the index was already 0.  The hypothesis is the camera-buffer invariant that
holds in reachable states: an inactive camera means no high-confidence
observation is buffered. -/
theorem restart_behaviour (s : AppState)
    (hcam : s.cameraOn = false → s.confidence ≤ 80) :
    (restartFn s).pendingVoiceCommand = Option.none ∧
    (restartFn s).showVoiceConfirmation = false ∧
    (restartFn s).index = 0 ∧
    (restartFn s).score = 0 ∧
    (restartFn s).selected = Option.none ∧
    (restartFn s).transcript = "" ∧
    (restartFn s).resultsAlreadyShown = false ∧
    (restartFn s).showResultsModal = false ∧
    (s.index ≠ 0 →
       (restartFn s).pendingGestureCommand = Option.none ∧
       (restartFn s).showGestureConfirmation = false) ∧
    (s.index = 0 →
       (restartFn s).pendingGestureCommand = s.pendingGestureCommand ∧
       (restartFn s).showGestureConfirmation = s.showGestureConfirmation) := by
  have hpg : processGesture (restartRawUpdates s) = restartRawUpdates s := by
    cases hcb : s.cameraOn with
    | true =>
        apply processGesture_of_nogesture
        simp [restartRawUpdates, hcb]
    | false =>
        apply processGesture_of_lowconf
        simpa [restartRawUpdates, hcb] using hcam hcb
  unfold restartFn
  rw [hpg]
  split
  · next hne =>
      rw [processCompletion_of_unselected _ rfl]
      exact ⟨rfl, rfl, rfl, rfl, rfl, rfl, rfl, rfl,
             fun _ => ⟨rfl, rfl⟩, fun h0 => absurd h0 hne⟩
  · next hz =>
      rw [processCompletion_of_unselected _ rfl]
      exact ⟨rfl, rfl, rfl, rfl, rfl, rfl, rfl, rfl,
             fun hne => absurd (by simpa using hz) hne, fun _ => ⟨rfl, rfl⟩⟩

/-- Witness for restart_behaviour at the reachable pending-at-zero state. -/
theorem restart_behaviour_witness :
    (restartFn (stepAll pendingAtZeroRun initState)).pendingVoiceCommand =
      Option.none ∧
    (restartFn (stepAll pendingAtZeroRun initState)).pendingGestureCommand =
      (stepAll pendingAtZeroRun initState).pendingGestureCommand := by
  have h := restart_behaviour (stepAll pendingAtZeroRun initState) (by decide)
  exact ⟨h.1, (h.2.2.2.2.2.2.2.2.2 (by decide)).1⟩

end Multisensorial
